import Mathlib

/-!
Verification of `delete_lines.py`, a one-shot script that reads the lines of
a file, removes the half-open 0-indexed range [822, 1404) with the slice
expression `lines[:822] + lines[1404:]`, writes the result back and prints
one summary line: `Deleted {1404 - 822} lines. New file has {len(new_lines)}
lines.`

The line buffer is embedded as `List String` (each element one line, with its
terminator inside the string). Python slice semantics for nonnegative bounds
are `List.take` and `List.drop`, which clamp at the length exactly as the
slices do.
-/

/-- The buffer written back, from line 10 of the script:
`new_lines = lines[:822] + lines[1404:]`. -/
def new_lines (lines : List String) : List String :=
  lines.take 822 ++ lines.drop 1404

/-- The slice transform of line 10 generalized over its two index bounds:
`buffer[:a] + buffer[b:]`. -/
def delete_range (buf : List String) (a b : Nat) : List String :=
  buf.take a ++ buf.drop b

/-- The removed-line count printed on line 16: the constant `1404 - 822`. -/
def printed_removed : Nat := 1404 - 822

/-- The resulting total printed on line 16: `len(new_lines)`. -/
def printed_total (lines : List String) : Nat :=
  (new_lines lines).length

/-- The console summary emitted on line 16. -/
def summary_line (lines : List String) : String :=
  "Deleted " ++ toString printed_removed ++ " lines. New file has " ++
    toString (printed_total lines) ++ " lines."

/-- The whole script as a function of the contents of the target file:
`none` models a file that cannot be opened, in which case the `open` on
line 5 raises and nothing else runs; otherwise the script produces the
written-back buffer and the console line. -/
def run (file : Option (List String)) : Except String (List String × String) :=
  match file with
  | none => Except.error "IOError"
  | some lines => Except.ok (new_lines lines, summary_line lines)

/-- Lines below the lower bound are looked up unchanged in the input. -/
lemma new_lines_getElem?_lt (l : List String) (i : Nat) (h : i < 822) :
    (new_lines l)[i]? = l[i]? := by
  unfold new_lines
  rw [List.getElem?_append]
  by_cases hc : i < (List.take 822 l).length
  · rw [if_pos hc, List.getElem?_take, if_pos h]
  · rw [List.length_take] at hc
    have hN : l.length ≤ i := by omega
    rw [if_neg (by rw [List.length_take]; omega)]
    rw [List.getElem?_eq_none hN]
    exact List.getElem?_eq_none (by rw [List.length_drop]; omega)

/-- Lines at or above the upper bound reappear shifted down by 582, as long
as the input is long enough for them to exist. -/
lemma new_lines_getElem?_ge (l : List String) (j : Nat)
    (h : 1404 + j < l.length) :
    (new_lines l)[822 + j]? = l[1404 + j]? := by
  unfold new_lines
  have hlt : (List.take 822 l).length = 822 := by
    rw [List.length_take]; omega
  rw [List.getElem?_append_right (by rw [hlt]; omega), hlt,
    Nat.add_sub_cancel_left, List.getElem?_drop]

/-- C1: for every input buffer with at least 1404 lines, the buffer written
back has exactly 582 fewer lines: length after the edit equals length before
the edit minus the size of the removed range [822, 1404). -/
theorem C1_length_after_edit (l : List String) (h : 1404 ≤ l.length) :
    (new_lines l).length = l.length - 582 := by
  simp [new_lines]
  omega

/-- Witness for C1 at a concrete buffer of exactly 1404 lines. -/
theorem C1_witness :
    1404 ≤ (List.replicate 1404 "x").length ∧
      (new_lines (List.replicate 1404 "x")).length =
        (List.replicate 1404 "x").length - 582 :=
  ⟨by simp only [List.length_replicate]; omega,
    C1_length_after_edit (List.replicate 1404 "x")
      (by simp only [List.length_replicate]; omega)⟩

/-- C2: every line with index below 822 and every line with index at least
1404 is preserved verbatim and in order: the output at index i equals the
input at index i for i < 822, and the output at index 822 + j equals the
input at index 1404 + j whenever that input position exists. -/
theorem C2_outside_range_preserved (l : List String) (i j : Nat) :
    (i < 822 → (new_lines l)[i]? = l[i]?) ∧
      (1404 + j < l.length → (new_lines l)[822 + j]? = l[1404 + j]?) :=
  ⟨fun h => new_lines_getElem?_lt l i h, fun h => new_lines_getElem?_ge l j h⟩

/-- C3 as stated is false: on the empty buffer the script removes 0 lines
but the printed removed count is the constant 582. -/
theorem C3_counterexample :
    printed_removed ≠ ([] : List String).length - (new_lines []).length := by
  decide

/-- C3 amended: the summary reports the hard-coded count 1404 - 822 = 582,
which equals the number of lines actually removed whenever the input has at
least 1404 lines, and it always reports the true resulting total. -/
theorem C3_amended_summary (l : List String) (h : 1404 ≤ l.length) :
    printed_removed = l.length - (new_lines l).length ∧
      printed_total l = (new_lines l).length := by
  refine ⟨?_, rfl⟩
  simp [printed_removed, new_lines]
  omega

/-- Witness for the amended C3 at a concrete buffer of 1404 lines. -/
theorem C3_witness :
    printed_removed =
        (List.replicate 1404 "x").length -
          (new_lines (List.replicate 1404 "x")).length ∧
      printed_total (List.replicate 1404 "x") =
        (new_lines (List.replicate 1404 "x")).length :=
  C3_amended_summary (List.replicate 1404 "x")
    (by simp only [List.length_replicate]; omega)

/-- C4: on a buffer shorter than 1404 lines no error is signalled and the
deletion range is truncated to the actual length: the output is the first
min(822, N) lines of the input, so its length is min(822, N). -/
theorem C4_short_file (l : List String) (h : l.length < 1404) :
    run (some l) = Except.ok (new_lines l, summary_line l) ∧
      new_lines l = l.take 822 ∧
      (new_lines l).length = min 822 l.length := by
  refine ⟨rfl, ?_, ?_⟩
  · unfold new_lines
    rw [List.drop_eq_nil_of_le (by omega), List.append_nil]
  · simp [new_lines]
    omega

/-- Witness for C4 at a concrete one-line buffer. -/
theorem C4_witness :
    run (some ["a"]) = Except.ok (new_lines ["a"], summary_line ["a"]) ∧
      new_lines ["a"] = ["a"].take 822 ∧
      (new_lines ["a"]).length = min 822 (["a"] : List String).length :=
  C4_short_file ["a"] (by simp)

/-- C5: on any buffer of exactly 1500 lines the output has
1500 - 582 = 918 lines and its line at 0-indexed position 822 is the input
line at 0-indexed position 1404 (1-indexed line 1405). -/
theorem C5_file_of_1500_lines (l : List String) (h : l.length = 1500) :
    (new_lines l).length = 918 ∧ (new_lines l)[822]? = l[1404]? := by
  refine ⟨?_, ?_⟩
  · simp [new_lines]
    omega
  · simpa using new_lines_getElem?_ge l 0 (by omega)

/-- Witness for C5 at a concrete buffer of 1500 lines. -/
theorem C5_witness :
    (new_lines (List.replicate 1500 "x")).length = 918 ∧
      (new_lines (List.replicate 1500 "x"))[822]? =
        (List.replicate 1500 "x")[1404]? :=
  C5_file_of_1500_lines (List.replicate 1500 "x") (by simp only [List.length_replicate])

/-- C6: the run errors exactly when the target file cannot be accessed; for
an accessible file of any length the index bounds never raise, the edit and
the summary are produced. -/
theorem C6_error_iff_inaccessible (file : Option (List String)) :
    (∃ e, run file = Except.error e) ↔ file = none := by
  cases file with
  | none => exact ⟨fun _ => rfl, fun _ => ⟨"IOError", rfl⟩⟩
  | some l =>
      constructor
      · rintro ⟨e, he⟩
        exact absurd he (by simp [run])
      · intro hc
        exact absurd hc (by simp)

/-- C7: the transform is not idempotent: on every buffer with more than 1404
lines, applying it twice yields a different buffer than applying it once,
because the second application removes a range of the modified buffer. -/
theorem C7_not_idempotent (l : List String) (h : 1404 < l.length) :
    new_lines (new_lines l) ≠ new_lines l := by
  intro heq
  have hlen := congrArg List.length heq
  simp [new_lines] at hlen
  omega

/-- Witness for C7 at a concrete buffer of 1405 lines. -/
theorem C7_witness :
    new_lines (new_lines (List.replicate 1405 "x")) ≠
      new_lines (List.replicate 1405 "x") :=
  C7_not_idempotent (List.replicate 1405 "x") (by simp only [List.length_replicate]; omega)

/-- C8: the transform generalized over its two bounds is the identity when
the range is empty: for every buffer and every index a,
`buf[:a] + buf[a:] = buf`. -/
theorem C8_empty_range_identity (buf : List String) (a : Nat) :
    delete_range buf a a = buf :=
  List.take_append_drop a buf

/-- C9: the printed removed count is the constant 582 regardless of the
input; on every buffer with fewer than 1404 lines it strictly exceeds the
number of lines actually removed, while the printed total always equals the
true length of the output buffer. -/
theorem C9_printed_count_constant (l : List String) (h : l.length < 1404) :
    printed_removed = 582 ∧
      printed_total l = (new_lines l).length ∧
      l.length - (new_lines l).length < printed_removed := by
  refine ⟨rfl, rfl, ?_⟩
  simp [printed_removed, new_lines]
  omega

/-- Witness for C9 at the empty buffer. -/
theorem C9_witness :
    printed_removed = 582 ∧
      printed_total [] = (new_lines []).length ∧
      ([] : List String).length - (new_lines []).length < printed_removed :=
  C9_printed_count_constant [] (by simp)

/-- C10: the program is deterministic: two runs from identical file contents
produce identical written-back buffers and identical console lines; the
output depends on nothing but the input contents. -/
theorem C10_deterministic (c₁ c₂ : List String) (h : c₁ = c₂) :
    run (some c₁) = run (some c₂) ∧
      new_lines c₁ = new_lines c₂ ∧
      summary_line c₁ = summary_line c₂ := by
  subst h
  exact ⟨rfl, rfl, rfl⟩

/-- Witness for C10 at the empty buffer. -/
theorem C10_witness :
    run (some ([] : List String)) = run (some []) ∧
      new_lines ([] : List String) = new_lines [] ∧
      summary_line ([] : List String) = summary_line [] :=
  C10_deterministic [] [] rfl
